import Mathlib

/-!
# MetaMold AI — verification of the analysis / pricing core

Shallow embedding of the MetaMold AI backend core:

* `Budget` embeds `backend/services/budget_calculator.py`
  (class `BudgetCalculator`): catalogs, the cost components
  `_calculate_material_cost`, `_calculate_processing_cost`,
  `_calculate_mold_base_cost`, `_calculate_setup_fee`,
  `_calculate_discount`, and the top-level `calculate`.
* `MainApi` embeds the simple pricing path
  `calculate_budget_from_stats` of `backend/main.py`.
* `Geo` embeds `backend/services/geometry_analyzer.py`
  (class `GeometryAnalyzer.analyze` and its helpers).

Modelling conventions:

* Python floats are modelled by `ℚ` (the spec states that internal
  arithmetic is full precision and rounding happens only at the output
  boundary, which the rational model realises exactly).
* Python `round(x, k)` is modelled by `roundDec k`.  Python rounds
  half-to-even while Mathlib's `round` rounds half-up; the two agree
  except at exact half-ulp values, which no statement below touches.
* Python dictionaries with optional keys read through `.get(k, default)`
  are modelled by structures with `Option` fields; `.get` becomes
  `Option.getD`.
* Exceptions that the source can actually raise are modelled by
  `Option` results (`none` = the call raises); code whose only reads are
  guarded `.get`s has no failure path and is modelled as total.
-/

set_option maxRecDepth 4000

/-- Python `round(x, k)` on the rational model: round `x` to `k` decimal
places.  (Mathlib `round` is half-up, Python is half-even; all concrete
values used below are away from exact half-ulp points.) -/
def roundDec (k : ℕ) (x : ℚ) : ℚ := ((round (x * (10 : ℚ) ^ k) : ℤ) : ℚ) / (10 : ℚ) ^ k

/-- `round(x, 2)` — the currency presentation rounding. -/
def round2 (x : ℚ) : ℚ := roundDec 2 x

/-- `round(x, 1)`. -/
def round1 (x : ℚ) : ℚ := roundDec 1 x

/-- `round(x, 4)`. -/
def round4 (x : ℚ) : ℚ := roundDec 4 x

/-- `round(x, 6)`. -/
def round6 (x : ℚ) : ℚ := roundDec 6 x

/-- Python `int(x)` on a rational: truncation toward zero. -/
def truncQ (x : ℚ) : ℤ := if 0 ≤ x then ⌊x⌋ else -⌊-x⌋

namespace Budget

/-- One entry of `BudgetCalculator.MATERIAL_PRICES`.  The display-only
fields (`hardness`, `density`) are omitted: no computation reads them. -/
structure MaterialInfo where
  price : ℚ
  name : String
deriving DecidableEq

/-- One entry of `BudgetCalculator.FINISH_MULTIPLIERS`.  The display-only
field `ra` is omitted: no computation reads it. -/
structure FinishInfo where
  multiplier : ℚ
  name : String
deriving DecidableEq

/-- `BudgetCalculator.MATERIAL_PRICES` as a partial lookup
(`dict.get`). -/
def MATERIAL_PRICES (mid : String) : Option MaterialInfo :=
  if mid == "H13" then some ⟨85/100, "Aço H13"⟩
  else if mid == "P20" then some ⟨65/100, "Aço P20"⟩
  else if mid == "718" then some ⟨75/100, "Aço 718"⟩
  else if mid == "ALUMINUM" then some ⟨45/100, "Alumínio 7075"⟩
  else if mid == "S7" then some ⟨70/100, "Aço S7"⟩
  else none

/-- The `MATERIAL_PRICES["P20"]` fallback entry. -/
def P20Info : MaterialInfo := ⟨65/100, "Aço P20"⟩

/-- `BudgetCalculator.FINISH_MULTIPLIERS` as a partial lookup. -/
def FINISH_MULTIPLIERS (fid : String) : Option FinishInfo :=
  if fid == "machined" then some ⟨1, "Maquinado"⟩
  else if fid == "ground" then some ⟨13/10, "Retificado"⟩
  else if fid == "polished" then some ⟨15/10, "Polido"⟩
  else if fid == "textured" then some ⟨18/10, "Texturizado"⟩
  else if fid == "edm" then some ⟨22/10, "Eletroerosão (EDM)"⟩
  else none

/-- The `FINISH_MULTIPLIERS["machined"]` fallback entry. -/
def machinedInfo : FinishInfo := ⟨1, "Maquinado"⟩

/-- `BudgetCalculator.BASE_FIXED_FEE`. -/
def BASE_FIXED_FEE : ℚ := 2500

/-- `MOLD_BASE_EXTRAS` (the five fixed extra costs). -/
def HOT_RUNNER : ℚ := 3500
def CONFORMAL_COOLING : ℚ := 5000
def DOUBLE_EXTRACTION : ℚ := 1500
def LIFTING_HOLES : ℚ := 300
def INSULATION : ℚ := 800

/-- `BudgetCalculator.CAD_MOLD_BASE_PRICES` (base price only; the
display-only `series` field is omitted). -/
def CAD_MOLD_BASE_PRICES (sid : String) : Option ℚ :=
  if sid == "HASCO Standard" then some 3500
  else if sid == "HASCO Premium" then some 4500
  else if sid == "DME Standard" then some 3200
  else if sid == "DME Premium" then some 4200
  else if sid == "FUTABA Standard" then some 3000
  else if sid == "FUTABA Premium" then some 4000
  else none

/-- `BudgetCalculator.PLATE_MATERIAL_ADDONS`, looked up with
`.get(key, 0)`. -/
def PLATE_MATERIAL_ADDONS (pid : String) : ℚ :=
  if pid == "Aço 1.1730 (C45W)" then 0
  else if pid == "Aço 1.2311 (P20)" then 200
  else if pid == "Aço 1.2312 (P20+S)" then 350
  else if pid == "Aço 1.2344 (H13)" then 800
  else if pid == "Alumínio 7075" then -500
  else if pid == "Aço 1.2767 (H13 Mod)" then 1200
  else 0

/-- `HOURLY_RATES` (EUR/hour). -/
def rateCnc3Axis : ℚ := 55
def rateCnc5Axis : ℚ := 85
def rateEdmHour : ℚ := 75
def rateFinishing : ℚ := 45
def rateAssembly : ℚ := 50
def rateQuality : ℚ := 60

/-- The `complexity_metrics` sub-dictionary as read by the calculator:
only the key `complexity_score` is consulted (default 50). -/
structure ComplexityDict where
  complexity_score : Option ℚ
deriving DecidableEq

/-- The `manufacturing_analysis` sub-dictionary as read by the
calculator: only `process_recommendations` is consulted (default `[]`). -/
structure ManufacturingDict where
  process_recommendations : List String
deriving DecidableEq

/-- The `stats` dictionary passed to `BudgetCalculator.calculate`, with
exactly the keys the calculator reads.  `none` models an absent key
(every read goes through `dict.get` with a default). -/
structure StatsDict where
  volume : Option ℚ
  complexity_metrics : Option ComplexityDict
  manufacturing_analysis : Option ManufacturingDict
deriving DecidableEq

/-- Legacy `mold_base_config` dictionary: the recognized keys.  Python
truthiness of `.get(key)` on an absent/false key is modelled by `Bool`
fields defaulting to `false`; absent numeric keys by `Option`. -/
structure MoldBaseConfig where
  plateWidth : Option ℚ
  plateLength : Option ℚ
  hotRunner : Bool
  conformalCooling : Bool
  doubleExtraction : Bool
deriving DecidableEq

/-- `cad_base_config` dictionary: the recognized keys. -/
structure CadBaseConfig where
  supplier : Option String
  plateMaterial : Option String
  insulationPlates : Bool
  liftingHoles : Bool
deriving DecidableEq

/-- `BudgetCalculator._calculate_material_cost`: gross volume with 15%
waste times the unit price (unknown material falls back to P20). -/
def calculate_material_cost (volume : ℚ) (material : String) : ℚ :=
  let materialInfo := (MATERIAL_PRICES material).getD P20Info
  (volume * (115/100)) * materialInfo.price

/-- `BudgetCalculator._calculate_processing_cost`.  `score` is
`complexity.get("complexity_score", 50)` resolved by the caller. -/
def calculate_processing_cost (volume : ℚ) (finish : String) (score : ℚ) : ℚ :=
  let complexityFactor := score / 50
  let machiningMinutes := volume * (1/2) * (1 + complexityFactor * (1/2))
  let hourlyRate :=
    if complexityFactor > 7/10 then rateCnc5Axis
    else if complexityFactor > 4/10 then rateCnc3Axis
    else rateCnc3Axis * (9/10)
  let machiningCost := (machiningMinutes / 60) * hourlyRate
  let finishInfo := (FINISH_MULTIPLIERS finish).getD machinedInfo
  let finishMultiplier := finishInfo.multiplier
  let finishCost := machiningCost * (finishMultiplier - 1) * (3/10)
  let edmCost :=
    if finish == "edm" || complexityFactor > 8/10 then
      ((volume * (2/10)) / 60) * rateEdmHour
    else 0
  let finishingMinutes := volume * (1/10) * finishMultiplier
  let finishingCost := (finishingMinutes / 60) * rateFinishing
  let assemblyCost := (8 + complexityFactor * 4) * rateAssembly
  let qaCost := (4 + complexityFactor * 2) * rateQuality
  machiningCost + finishCost + edmCost + finishingCost + assemblyCost + qaCost

/-- `BudgetCalculator._calculate_mold_base_cost`.  (Python also treats
an *empty* config dict as absent via truthiness; an empty dict is not
distinguished from an absent one here — no claim depends on it.) -/
def calculate_mold_base_cost (moldBaseConfig : Option MoldBaseConfig)
    (cadBaseConfig : Option CadBaseConfig) : ℚ :=
  match cadBaseConfig with
  | some cad =>
      let supplier := cad.supplier.getD "HASCO Standard"
      let base := (CAD_MOLD_BASE_PRICES supplier).getD 3500
      let plateMaterial := cad.plateMaterial.getD "Aço 1.1730 (C45W)"
      let addon := PLATE_MATERIAL_ADDONS plateMaterial
      let extras := (if cad.insulationPlates then INSULATION else 0)
        + (if cad.liftingHoles then LIFTING_HOLES else 0)
      base + addon + extras
  | none =>
      match moldBaseConfig with
      | some mb =>
          let width := mb.plateWidth.getD 296
          let length := mb.plateLength.getD 296
          let baseCost := (width * length) / 10000 * 400
          baseCost + (if mb.hotRunner then HOT_RUNNER else 0)
            + (if mb.conformalCooling then CONFORMAL_COOLING else 0)
            + (if mb.doubleExtraction then DOUBLE_EXTRACTION else 0)
      | none => 3000

/-- `BudgetCalculator._calculate_setup_fee`: the fixed base fee plus a
conformal-cooling engineering surcharge. -/
def calculate_setup_fee (moldBaseConfig : Option MoldBaseConfig) : ℚ :=
  match moldBaseConfig with
  | some mb => BASE_FIXED_FEE + (if mb.conformalCooling then 1500 else 0)
  | none => BASE_FIXED_FEE

/-- `BudgetCalculator._calculate_discount`: the quantity discount rate. -/
def calculate_discount (quantity : ℤ) : ℚ :=
  if quantity ≥ 100 then 15/100
  else if quantity ≥ 50 then 10/100
  else if quantity ≥ 10 then 5/100
  else 0

/-- The `breakdown` dictionary produced by `calculate`. -/
structure Breakdown where
  material_cost : ℚ
  processing_cost : ℚ
  mold_base_cost : ℚ
  setup_fee : ℚ
  subtotal : ℚ
  discount_percent : String
  discount_amount : ℚ
  quantity : ℤ
  price_per_piece : ℚ
deriving DecidableEq

/-- The dictionary returned by `BudgetCalculator.calculate`. -/
structure CalcResult where
  total_price : ℚ
  breakdown : Breakdown
  material_cost : ℚ
  processing_cost : ℚ
  mold_base_cost : ℚ
  setup_fee : ℚ
  discount : ℚ
  final_price : ℚ
  material_info : Option MaterialInfo
  finish_info : Option FinishInfo
  manufacturing_recommendations : List String
deriving DecidableEq

/-- The f-string `f"{discount * 100:.0f}%"` on the four exact discount
rates. -/
def discountPercentStr (d : ℚ) : String := toString (round (d * 100)) ++ "%"

/-- `BudgetCalculator.calculate`.  Every read of `stats` goes through
`dict.get` with a default, and the arithmetic below is total, so the
source's `try/except` wrapper has no reachable failure path for any
input of these types: the call always returns a breakdown. -/
def calculate (stats : StatsDict) (material : String) (finish : String)
    (quantity : ℤ) (moldBaseConfig : Option MoldBaseConfig)
    (cadBaseConfig : Option CadBaseConfig) : CalcResult :=
  let volume := stats.volume.getD 100
  let complexity := stats.complexity_metrics.getD ⟨none⟩
  let manufacturing := stats.manufacturing_analysis.getD ⟨[]⟩
  let score := complexity.complexity_score.getD 50
  let materialCost := calculate_material_cost volume material
  let processingCost := calculate_processing_cost volume finish score
  let moldBaseCost := calculate_mold_base_cost moldBaseConfig cadBaseConfig
  let setupFee := calculate_setup_fee moldBaseConfig
  let subtotal := materialCost + processingCost + moldBaseCost + setupFee
  let discount := calculate_discount quantity
  let discountAmount := subtotal * discount
  let totalPrice := round2 (subtotal - discountAmount)
  { total_price := totalPrice
    breakdown :=
      { material_cost := round2 materialCost
        processing_cost := round2 processingCost
        mold_base_cost := round2 moldBaseCost
        setup_fee := round2 setupFee
        subtotal := round2 subtotal
        discount_percent := discountPercentStr discount
        discount_amount := round2 discountAmount
        quantity := quantity
        price_per_piece := if quantity > 0 then round2 (totalPrice / quantity) else 0 }
    material_cost := materialCost
    processing_cost := processingCost
    mold_base_cost := moldBaseCost
    setup_fee := setupFee
    discount := discount
    final_price := totalPrice
    material_info := MATERIAL_PRICES material
    finish_info := FINISH_MULTIPLIERS finish
    manufacturing_recommendations := manufacturing.process_recommendations }

/-- The full-precision subtotal of a pricing request (material +
processing + mold base + setup), as formed inside `calculate`. -/
def subtotalOf (stats : StatsDict) (material : String) (finish : String)
    (moldBaseConfig : Option MoldBaseConfig)
    (cadBaseConfig : Option CadBaseConfig) : ℚ :=
  calculate_material_cost (stats.volume.getD 100) material
    + calculate_processing_cost (stats.volume.getD 100) finish
        ((stats.complexity_metrics.getD ⟨none⟩).complexity_score.getD 50)
    + calculate_mold_base_cost moldBaseConfig cadBaseConfig
    + calculate_setup_fee moldBaseConfig

end Budget

namespace MainApi

/-- The fields of `main.GeometryStats` that `calculate_budget_from_stats`
reads (the remaining fields are pass-through display data). -/
structure GeometryStatsIn where
  volume_cm3 : ℚ
  area_cm2 : ℚ
deriving DecidableEq

/-- The quantity-discount multiplier of `calculate_budget_from_stats`
(`quantity_discount` in the source). -/
def quantityDiscountMult (quantity : ℤ) : ℚ :=
  if quantity ≥ 100 then 85/100
  else if quantity ≥ 50 then 90/100
  else if quantity ≥ 10 then 95/100
  else 1

/-- The dictionary returned by `calculate_budget_from_stats`. -/
structure SimpleBudget where
  unit_price : ℚ
  total_price : ℚ
  currency : String
  material : String
  hardness : String
  finish : String
  setup_fee : ℚ
  material_cost : ℚ
  finish_cost : ℚ
  quantity_discount : String
  production_time_days : ℤ
  volume_cm3 : ℚ
  area_cm2 : ℚ
deriving DecidableEq

/-- Material unit price of the simple path's `materials` table (same
values as the detailed calculator's catalog), with the P20 fallback. -/
def simpleMaterialPrice (mid : String) : ℚ :=
  ((Budget.MATERIAL_PRICES mid).getD Budget.P20Info).price

/-- Material display name of the simple path's table. -/
def simpleMaterialName (mid : String) : String :=
  ((Budget.MATERIAL_PRICES mid).getD Budget.P20Info).name

/-- Hardness strings of the simple path's `materials` table. -/
def simpleMaterialHardness (mid : String) : String :=
  if mid == "H13" then "48-52 HRC"
  else if mid == "718" then "32-38 HRC"
  else if mid == "ALUMINUM" then "60-65 HB"
  else if mid == "S7" then "54-58 HRC"
  else "28-32 HRC"

/-- Finish multiplier of the simple path's `finishes` table, with the
machined fallback. -/
def simpleFinishMult (fid : String) : ℚ :=
  ((Budget.FINISH_MULTIPLIERS fid).getD Budget.machinedInfo).multiplier

/-- Finish display name of the simple path's table. -/
def simpleFinishName (fid : String) : String :=
  ((Budget.FINISH_MULTIPLIERS fid).getD Budget.machinedInfo).name

/-- The f-string of the simple path's quantity-discount display,
`f"{int((1 - quantity_discount) * 100)}%"`. -/
def simpleDiscountStr (qd : ℚ) : String := toString (truncQ ((1 - qd) * 100)) ++ "%"

/-- `main.calculate_budget_from_stats`: the simple pricing path.  The
fixed 500 EUR setup fee enters the *per-piece* cost, which is then
multiplied by the quantity. -/
def calculate_budget_from_stats (stats : GeometryStatsIn) (material : String)
    (finish : String) (quantity : ℤ) : SimpleBudget :=
  let matPrice := simpleMaterialPrice material
  let finMult := simpleFinishMult finish
  let materialCost := stats.volume_cm3 * matPrice
  let finishCost := materialCost * (finMult - 1)
  let setupFee : ℚ := 500
  let quantityDiscount := quantityDiscountMult quantity
  let pieceCost := (materialCost + finishCost + setupFee) * quantityDiscount
  let total := pieceCost * quantity
  let productionTime := max 5 (truncQ ((quantity : ℚ) / 10) + 3)
  { unit_price := round2 pieceCost
    total_price := round2 total
    currency := "EUR"
    material := simpleMaterialName material
    hardness := simpleMaterialHardness material
    finish := simpleFinishName finish
    setup_fee := round2 (setupFee * quantityDiscount)
    material_cost := round2 (materialCost * quantityDiscount)
    finish_cost := round2 (finishCost * quantityDiscount)
    quantity_discount := simpleDiscountStr quantityDiscount
    production_time_days := productionTime
    volume_cm3 := round2 stats.volume_cm3
    area_cm2 := round2 stats.area_cm2 }

end MainApi

namespace Geo

/-- A 3D point with rational coordinates. -/
abbrev Point := ℚ × ℚ × ℚ

/-- The mesh handed to `GeometryAnalyzer.analyze`: the vertex/face
arrays plus the trimesh-derived read-only properties the analyzer
consumes (`volume`, `area`, `is_watertight`, `is_convex`, `centroid`,
`moment_inertia`, `face_angles` are produced by the external mesh
library and are carried as given data). -/
structure Mesh where
  vertices : List Point
  faces : List (ℕ × ℕ × ℕ)
  volume : ℚ
  area : ℚ
  is_watertight : Bool
  is_convex : Bool
  centroid : List ℚ
  moment_inertia : List (List ℚ)
  face_angles : List (ℚ × ℚ × ℚ)

/-- The three vertex indices of a face. -/
def faceIdx (f : ℕ × ℕ × ℕ) : List ℕ := [f.1, f.2.1, f.2.2]

/-- The vertices referenced by at least one face (trimesh's
`referenced_vertices` selection, which `bounds` is computed over). -/
def referencedVerts (m : Mesh) : List Point :=
  ((m.faces.map faceIdx).flatten).filterMap (fun i => m.vertices[i]?)

/-- Componentwise minimum. -/
def cmin (a b : Point) : Point := (min a.1 b.1, min a.2.1 b.2.1, min a.2.2 b.2.2)

/-- Componentwise maximum. -/
def cmax (a b : Point) : Point := (max a.1 b.1, max a.2.1 b.2.1, max a.2.2 b.2.2)

/-- trimesh `mesh.bounds`: the axis-aligned min/max corners of the
face-referenced vertices, or `None` when there are none. -/
def meshBounds (m : Mesh) : Option (Point × Point) :=
  match referencedVerts m with
  | [] => none
  | v :: vs => some (vs.foldl (fun acc p => (cmin acc.1 p, cmax acc.2 p)) (v, v))

/-- An undirected edge, normalized so the smaller index comes first. -/
def normEdge (a b : ℕ) : ℕ × ℕ := if a ≤ b then (a, b) else (b, a)

/-- The three undirected edges of a face. -/
def faceEdges (f : ℕ × ℕ × ℕ) : List (ℕ × ℕ) :=
  [normEdge f.1 f.2.1, normEdge f.2.1 f.2.2, normEdge f.1 f.2.2]

/-- trimesh `edges_unique`: the deduplicated undirected edge list. -/
def edgesUnique (m : Mesh) : List (ℕ × ℕ) := ((m.faces.map faceEdges).flatten).dedup

/-- The `dimensions` dictionary computed in `analyze` (the `max` and
`min` fields are `np.max`/`np.min` of the three extents). -/
structure Dimensions where
  width : ℚ
  height : ℚ
  depth : ℚ
  max : ℚ
  min : ℚ
deriving DecidableEq

/-- The `dimensions` dictionary from the bounding-box corners. -/
def dimsOf (lo hi : Point) : Dimensions :=
  let w := hi.1 - lo.1
  let h := hi.2.1 - lo.2.1
  let d := hi.2.2 - lo.2.2
  { width := w, height := h, depth := d,
    max := max w (max h d), min := min w (min h d) }

/-- Python `max(dimensions.values())` over the five stored values. -/
def dimsMax (d : Dimensions) : ℚ :=
  max d.width (max d.height (max d.depth (max d.max d.min)))

/-- Python `min(dimensions.values())` over the five stored values. -/
def dimsMin (d : Dimensions) : ℚ :=
  min d.width (min d.height (min d.depth (min d.max d.min)))

/-- Squared Euclidean distance.  The source measures edges with
`np.linalg.norm`, which is irrational over ℚ; edge magnitudes are
carried as squared lengths here.  Fixed thresholds on individual edge
ratios are translated accordingly (`> 5` on a ratio becomes `> 25` on a
squared ratio); everything proved about these quantities (each
max/min ratio is `≥ 1`, and how the score composes from them) is
invariant under this monotone change of scale. -/
def sqDist (a b : Point) : ℚ :=
  (a.1 - b.1) ^ 2 + (a.2.1 - b.2.1) ^ 2 + (a.2.2 - b.2.2) ^ 2

/-- The aspect ratio of one face in `_calculate_complexity`
(longest/shortest edge, 1 when the shortest edge is degenerate);
`none` models the `IndexError` of `mesh.vertices[face]` on an
out-of-range face. -/
def faceAspect (m : Mesh) (f : ℕ × ℕ × ℕ) : Option ℚ := do
  let v0 ← m.vertices[f.1]?
  let v1 ← m.vertices[f.2.1]?
  let v2 ← m.vertices[f.2.2]?
  let e0 := sqDist v1 v0
  let e1 := sqDist v2 v1
  let e2 := sqDist v0 v2
  let eMax := max e0 (max e1 e2)
  let eMin := min e0 (min e1 e2)
  pure (if eMin > 0 then eMax / eMin else 1)

/-- Arithmetic mean (`np.mean`). -/
def meanQ (l : List ℚ) : ℚ := l.sum / (l.length : ℚ)

/-- `surface_volume_ratio` with its zero-guard. -/
def svrOf (volume area : ℚ) : ℚ := if volume > 0 then area / volume else 0

/-- `compactness` with its zero-guard. -/
def compactnessOf (d : Dimensions) : ℚ :=
  if dimsMax d > 0 then dimsMin d / dimsMax d else 0

/-- `triangle_density` with its zero-guard. -/
def densityOf (faceCount : ℕ) (area : ℚ) : ℚ :=
  if area > 0 then (faceCount : ℚ) / area else 0

/-- `average_aspect_ratio` in the source: the mean of the per-face
aspect ratios, 1 when there are no faces. -/
def avgAspectOf (rs : List ℚ) : ℚ := if rs = [] then 1 else meanQ rs

/-- The composite complexity score before presentation rounding:
`min(100, svr*10 + (1-compactness)*50 + density*0.001 + (avg-1)*10)`. -/
def rawScore (svr compactness density avgAspect : ℚ) : ℚ :=
  min 100 (svr * 10 + (1 - compactness) * 50 + density * (1/1000) + (avgAspect - 1) * 10)

/-- `GeometryAnalyzer._get_difficulty_rating`. -/
def getDifficultyRating (score : ℚ) : String :=
  if score < 25 then "Baixa"
  else if score < 50 then "Média"
  else if score < 75 then "Alta"
  else "Muito Alta"

/-- The `complexity_metrics` dictionary.  Source keys: `svr` is
`surface_volume_ratio`, `avg_aspect` is `average_aspect_ratio`. -/
structure ComplexityMetrics where
  svr : ℚ
  compactness : ℚ
  triangle_density : ℚ
  avg_aspect : ℚ
  complexity_score : ℚ
  difficulty_rating : String
deriving DecidableEq

/-- `GeometryAnalyzer._calculate_complexity`.  Its `except` branch is
reachable exactly when a face indexes out of range
(`mesh.vertices[face]` raises `IndexError`); the documented neutral
default `{0, 1, 0, 1, 50, Média}` is then returned.  Note that the
reported `complexity_score` is rounded to 2 decimals while
`difficulty_rating` is derived from the *unrounded* score. -/
def calcComplexity (m : Mesh) (volume area : ℚ) (d : Dimensions) : ComplexityMetrics :=
  match m.faces.mapM (faceAspect m) with
  | none =>
      { svr := 0, compactness := 1, triangle_density := 0, avg_aspect := 1,
        complexity_score := 50, difficulty_rating := "Média" }
  | some rs =>
      let svr := svrOf volume area
      let compactness := compactnessOf d
      let density := densityOf m.faces.length area
      let avgAspect := avgAspectOf rs
      let score := rawScore svr compactness density avgAspect
      { svr := round4 svr, compactness := round4 compactness,
        triangle_density := round4 density, avg_aspect := round4 avgAspect,
        complexity_score := round2 score,
        difficulty_rating := getDifficultyRating score }

/-- The unrounded complexity score that `analyze` feeds to
`_get_difficulty_rating` (50 on the degenerate/default branches). -/
def scoreOfMesh (m : Mesh) : ℚ :=
  match meshBounds m with
  | none => 50
  | some (lo, hi) =>
      match m.faces.mapM (faceAspect m) with
      | none => 50
      | some rs =>
          let volume := if m.is_watertight then m.volume else 0
          rawScore (svrOf volume m.area) (compactnessOf (dimsOf lo hi))
            (densityOf m.faces.length m.area) (avgAspectOf rs)

/-- `GeometryAnalyzer._calculate_inertia`: the mesh's own inertia tensor
when the (suppressed) volume is positive, the 3×3 identity placeholder
otherwise.  (The source's `except` branch returning zeros is unreachable
for inputs of these types: neither branch of the body can raise.) -/
def calcInertia (m : Mesh) (volume : ℚ) : List (List ℚ) :=
  if volume > 0 then m.moment_inertia
  else [[1, 0, 0], [0, 1, 0], [0, 0, 1]]

/-- The triangle-type counters of `_analyze_face_types`. -/
structure FaceTypes where
  acute : ℕ
  right : ℕ
  obtuse : ℕ
deriving DecidableEq

/-- `np.isclose(angle, 90, atol=1)` with numpy's default
`rtol = 1e-5`: true when `|angle - 90| ≤ 1 + 90e-5`. -/
def close90 (a : ℚ) : Bool := decide (|a - 90| ≤ 10009/10000)

/-- `GeometryAnalyzer._analyze_face_types` over the per-face interior
angles: the near-90° test takes priority, then all-acute, else obtuse. -/
def faceTypesOf (l : List (ℚ × ℚ × ℚ)) : FaceTypes :=
  l.foldl
    (fun t a =>
      if close90 a.1 || close90 a.2.1 || close90 a.2.2 then
        { t with right := t.right + 1 }
      else if decide (a.1 < 90) && decide (a.2.1 < 90) && decide (a.2.2 < 90) then
        { t with acute := t.acute + 1 }
      else { t with obtuse := t.obtuse + 1 })
    ⟨0, 0, 0⟩

/-- The `mesh_info` dictionary. -/
structure MeshInfo where
  vertex_count : ℕ
  face_count : ℕ
  edge_count : ℕ
  face_types : FaceTypes
  is_watertight : Bool
  is_convex : Bool
  euler_number : ℤ
  genus : Option ℤ
  orientation : String
deriving DecidableEq

/-- trimesh `euler_number`: `V - E + F` over the vertex list, the
unique-edge list and the face list. -/
def eulerNumber (m : Mesh) : ℤ :=
  (m.vertices.length : ℤ) - ((edgesUnique m).length : ℤ) + (m.faces.length : ℤ)

/-- The `mesh_info` block of `analyze`.  `genus` uses Python
`int((2 - e) / 2)`, i.e. truncation toward zero; `orientation` tests
`mesh.face_normals.shape[0] > 0`, and trimesh yields one normal row per
face. -/
def meshInfoOf (m : Mesh) : MeshInfo :=
  { vertex_count := m.vertices.length
    face_count := m.faces.length
    edge_count := (edgesUnique m).length
    face_types := faceTypesOf m.face_angles
    is_watertight := m.is_watertight
    is_convex := m.is_convex
    euler_number := eulerNumber m
    genus := if m.is_watertight then some (Int.tdiv (2 - eulerNumber m) 2) else none
    orientation := if m.faces.length > 0 then "consistent" else "unknown" }

/-- The `thickness_analysis` dictionary. -/
structure Thickness where
  estimated_min_thickness : ℚ
  estimated_max_thickness : ℚ
  note : String
  recommendation : String
deriving DecidableEq

/-- `GeometryAnalyzer._analyze_thickness` (total on the rational
model: no failure path remains once `bounds` exists). -/
def thicknessOf (lo hi : Point) : Thickness :=
  let s1 := hi.1 - lo.1
  let s2 := hi.2.1 - lo.2.1
  let s3 := hi.2.2 - lo.2.2
  { estimated_min_thickness := round2 (min s1 (min s2 s3) / 10)
    estimated_max_thickness := round2 (max s1 (max s2 s3) / 2)
    note := "Análise detalhada requer algoritmo de ray casting"
    recommendation := "Considere usar análise CAE para otimização" }

/-- The `curvature` dictionary. -/
structure Curvature where
  mean_curvature : ℚ
  max_curvature : ℚ
  curvature_variance : ℚ
  complex_curvature_regions : ℕ
deriving DecidableEq

/-- trimesh `vertex_neighbors` of vertex `i`: the vertices sharing a
unique edge with `i`.  (trimesh's own neighbor ordering is an
implementation detail; it only selects which ≤ 5 neighbors the
curvature heuristic samples, and no claim depends on that choice.) -/
def vertexNeighbors (m : Mesh) (i : ℕ) : List ℕ :=
  (edgesUnique m).filterMap (fun e =>
    if e.1 = i then some e.2 else if e.2 = i then some e.1 else none)

/-- Population variance (`np.var`).  The source's per-vertex curvature
proxy is `np.std`, the square root of this — irrational over ℚ — so the
variance is the dispersion value carried here; no claim concerns these
values. -/
def varQ (l : List ℚ) : ℚ :=
  let mu := meanQ l
  (l.map (fun x => (x - mu) ^ 2)).sum / (l.length : ℚ)

/-- The per-vertex curvature proxies of `_analyze_curvature`: for each
vertex with at least 3 neighbors, the dispersion of the (squared)
distances to up to 5 neighboring vertices. -/
def vertexCurvatures (m : Mesh) : List ℚ :=
  (List.range m.vertices.length).filterMap (fun i =>
    let ns := vertexNeighbors m i
    if ns.length ≥ 3 then
      let v := m.vertices.getD i (0, 0, 0)
      let variations := (ns.take 5).map (fun n => sqDist (m.vertices.getD n (0, 0, 0)) v)
      some (if variations = [] then 0 else varQ variations)
    else none)

/-- `GeometryAnalyzer._analyze_curvature` aggregates.  `np.max` over the
(nonnegative) proxies is a fold of `max` from 0. -/
def curvatureOf (m : Mesh) : Curvature :=
  let cs := vertexCurvatures m
  if cs = [] then ⟨0, 0, 0, 0⟩
  else
    let mu := meanQ cs
    { mean_curvature := round4 mu
      max_curvature := round4 (cs.foldl max 0)
      curvature_variance := round6 (varQ cs)
      complex_curvature_regions := (cs.filter (fun c => c > 2 * mu)).length }

/-- The relevant values of the *unguarded* numpy aspect-ratio division
in `_identify_critical_features`: `nan` (0/0: all edges of the sampled
face degenerate), `inf` (positive/0), or a finite value. -/
inductive NpVal where
  | nan : NpVal
  | inf : NpVal
  | val : ℚ → NpVal
deriving DecidableEq

/-- The aspect ratio of one sampled face in
`_identify_critical_features` (no zero-guard in the source); `none`
models the `IndexError` on an out-of-range face. -/
def critAspect (m : Mesh) (f : ℕ × ℕ × ℕ) : Option NpVal := do
  let v0 ← m.vertices[f.1]?
  let v1 ← m.vertices[f.2.1]?
  let v2 ← m.vertices[f.2.2]?
  let e0 := sqDist v1 v0
  let e1 := sqDist v2 v1
  let e2 := sqDist v0 v2
  let eMax := max e0 (max e1 e2)
  let eMin := min e0 (min e1 e2)
  pure (if eMin > 0 then NpVal.val (eMax / eMin)
    else if eMax > 0 then NpVal.inf else NpVal.nan)

/-- `np.max(aspect_ratios) > 5` with numpy float semantics: `nan`
poisons the maximum (comparison false), `inf` dominates (comparison
true); the finite threshold is 25 on the squared ratios carried here
(see `sqDist`). -/
def npMaxGtThreshold (rs : List NpVal) : Bool :=
  if rs.any (fun r => r == NpVal.nan) then false
  else if rs.any (fun r => r == NpVal.inf) then true
  else rs.any (fun r => match r with | NpVal.val q => decide (q > 25) | _ => false)

/-- `GeometryAnalyzer._identify_critical_features`.  The `except`
branch (`["Análise não disponível"]`) is reached when `np.max` sees an
empty sample (no faces) or a sampled face indexes out of range. -/
def criticalFeatures (m : Mesh) : List String :=
  match (m.faces.take 100).mapM (critAspect m) with
  | none => ["Análise não disponível"]
  | some rs =>
      if rs = [] then ["Análise não disponível"]
      else
        let l1 := if ((edgesUnique m).length : ℚ) > (m.faces.length : ℚ) * (3/2) then
            ["Furos/Multicavidades"] else []
        let l2 := if m.is_convex then [] else ["Geometria não-convexa"]
        let l3 := if npMaxGtThreshold rs then ["Paredes finas detetadas"] else []
        let fs := l1 ++ l2 ++ l3
        if fs = [] then ["Geometria padrão"] else fs

/-- The `manufacturing_analysis` dictionary. -/
structure Manufacturing where
  machining_difficulty : String
  estimated_machining_hours : ℚ
  material_recommendation : String
  finish_recommendation : String
  critical_features : List String
  process_recommendations : List String
deriving DecidableEq

/-- `GeometryAnalyzer._recommend_material`. -/
def recommendMaterial (score : ℚ) : String :=
  if score > 75 then "H13 (Aço para trabalho a quente - alta resistência)"
  else if score > 50 then "P20 (Aço para moldes - bom equilíbrio)"
  else "718 (Aço pré-endurecido - económico)"

/-- `GeometryAnalyzer._recommend_finish`. -/
def recommendFinish (m : Mesh) (score : ℚ) : String :=
  if score > 70 then "EDM (Eletroerosão para geometrias complexas)"
  else if m.is_convex then "Polido (Superfície acessível para polimento)"
  else "Texturizado (Para superfícies com detalhes)"

/-- `GeometryAnalyzer._get_process_recommendations`, in source order. -/
def processRecommendations (score avgAspect : ℚ) : List String :=
  (if score < 40 then ["CNC 3-eixos para cavidades principais"] else [])
    ++ (if score ≥ 40 then ["CNC 5-eixos para acesso completo"] else [])
    ++ (if avgAspect > 3 then ["EDM para detalhes e arestas vivas"] else [])
    ++ (if score > 60 then ["DMLS para canais de refrigeração conformal"] else [])

/-- `GeometryAnalyzer._analyze_manufacturing`.  It reads the *reported*
(rounded) complexity metrics and the raw `mesh.volume` — not the
watertightness-suppressed volume. -/
def manufacturingOf (m : Mesh) (cm : ComplexityMetrics) : Manufacturing :=
  let score := cm.complexity_score
  { machining_difficulty := cm.difficulty_rating
    estimated_machining_hours := round1 (m.volume * (1/100) * (score / 50))
    material_recommendation := recommendMaterial score
    finish_recommendation := recommendFinish m score
    critical_features := criticalFeatures m
    process_recommendations := processRecommendations score cm.avg_aspect }

/-- The `bounding_box` dictionary. -/
structure BoundingBox where
  min : List ℚ
  max : List ℚ
  center : List ℚ
  size : List ℚ
deriving DecidableEq

/-- `tolist()` of a point. -/
def pointToList (p : Point) : List ℚ := [p.1, p.2.1, p.2.2]

/-- The `bounding_box` block of `analyze`. -/
def bboxOf (lo hi : Point) : BoundingBox :=
  { min := pointToList lo
    max := pointToList hi
    center := [(lo.1 + hi.1) / 2, (lo.2.1 + hi.2.1) / 2, (lo.2.2 + hi.2.2) / 2]
    size := [hi.1 - lo.1, hi.2.1 - lo.2.1, hi.2.2 - lo.2.2] }

/-- The full statistics bundle returned by `analyze`. -/
structure AnalyzeResult where
  volume : ℚ
  area : ℚ
  dimensions : Dimensions
  center_of_mass : List ℚ
  inertia_tensor : List (List ℚ)
  bounding_box : BoundingBox
  mesh_info : MeshInfo
  complexity_metrics : ComplexityMetrics
  thickness_analysis : Thickness
  curvature : Curvature
  manufacturing_analysis : Manufacturing
deriving DecidableEq

/-- `GeometryAnalyzer.analyze`.  trimesh's `bounds` is `None` when the
mesh has no face-referenced vertices, and the source's unguarded
`bounds[1][0] - bounds[0][0]` then raises (re-raised by the top-level
handler): that is the one reachable failure path, modelled by `none`.
Every other sub-computation is either total or internally guarded, so a
mesh with a defined bounding box always yields a complete bundle. -/
def analyze (m : Mesh) : Option AnalyzeResult :=
  match meshBounds m with
  | none => none
  | some (lo, hi) =>
      let volume := if m.is_watertight then m.volume else 0
      let area := m.area
      let dims := dimsOf lo hi
      let cm := calcComplexity m volume area dims
      some
        { volume := volume
          area := area
          dimensions := dims
          center_of_mass := m.centroid
          inertia_tensor := calcInertia m volume
          bounding_box := bboxOf lo hi
          mesh_info := meshInfoOf m
          complexity_metrics := cm
          thickness_analysis := thicknessOf lo hi
          curvature := curvatureOf m
          manufacturing_analysis := manufacturingOf m cm }

/-- The spec's mesh invariant: every face index is in range. -/
def facesValid (m : Mesh) : Bool :=
  m.faces.all (fun f =>
    f.1 < m.vertices.length && f.2.1 < m.vertices.length && f.2.2 < m.vertices.length)

end Geo

/-! ## Concrete inputs used by witnesses and counterexamples -/

/-- Material id used in concrete instances. -/
def strP20 : String := "P20"

/-- Finish id used in concrete instances. -/
def strMachined : String := "machined"

/-- A regular tetrahedron on four corners of the unit cube; its
trimesh-derived data (volume 1/3, approximate area, equilateral face
angles) supplied as the external library would. -/
def tetraMesh : Geo.Mesh :=
  { vertices := [(0, 0, 0), (1, 1, 0), (1, 0, 1), (0, 1, 1)]
    faces := [(0, 1, 2), (0, 1, 3), (0, 2, 3), (1, 2, 3)]
    volume := 1/3
    area := 7/2
    is_watertight := true
    is_convex := true
    centroid := [1/2, 1/2, 1/2]
    moment_inertia := [[1/60, 0, 0], [0, 1/60, 0], [0, 0, 1/60]]
    face_angles := [(60, 60, 60), (60, 60, 60), (60, 60, 60), (60, 60, 60)] }

/-- The same tetrahedron reported non-watertight by the mesh library. -/
def tetraOpenMesh : Geo.Mesh :=
  { tetraMesh with is_watertight := false }

/-- A tetrahedron whose external volume/area data put the unrounded
complexity score at exactly 24.996 (surface/volume term 24.995,
triangle-density term 0.001, the other two terms 0). -/
def mesh25 : Geo.Mesh :=
  { tetraMesh with volume := 8000/4999, area := 4 }

/-- A statistics dictionary with every key absent. -/
def statsNone : Budget.StatsDict := ⟨none, none, none⟩

/-- A statistics dictionary accepted by `BudgetCalculator.calculate`
whose full-precision subtotal is exactly 0.01 EUR (volume 0 and a
negative `complexity_score`, which the calculator never validates). -/
def statsTiny : Budget.StatsDict :=
  ⟨some 0, some ⟨some (-613999/640)⟩, none⟩

/-! ## Rounding lemmas -/

theorem round2_def (x : ℚ) : round2 x = ((round (x * 100) : ℤ) : ℚ) / 100 := by
  norm_num [round2, roundDec]

/-- `round2` overshoots by at most half a cent. -/
theorem round2_le (x : ℚ) : round2 x ≤ x + 1/200 := by
  rw [round2_def]
  have h : ((round (x * 100) : ℤ) : ℚ) ≤ x * 100 + 1/2 := round_le_add_half (x * 100)
  linarith

/-- `round2` undershoots by strictly less than half a cent. -/
theorem sub_lt_round2 (x : ℚ) : x - 1/200 < round2 x := by
  rw [round2_def]
  have h : x * 100 - 1/2 < ((round (x * 100) : ℤ) : ℚ) := sub_half_lt_round (x * 100)
  linarith

theorem round2_mono {x y : ℚ} (h : x ≤ y) : round2 x ≤ round2 y := by
  rw [round2_def, round2_def]
  have hr : round (x * 100) ≤ round (y * 100) := by
    rw [round_eq, round_eq]
    exact Int.floor_le_floor (by linarith)
  have hr' : ((round (x * 100) : ℤ) : ℚ) ≤ ((round (y * 100) : ℤ) : ℚ) := by exact_mod_cast hr
  linarith

theorem round2_zero : round2 0 = 0 := by
  norm_num [round2_def]

theorem round2_hundred : round2 100 = 100 := by
  norm_num [round2_def, round_eq]

theorem round2_nonneg {x : ℚ} (h : 0 ≤ x) : 0 ≤ round2 x := by
  have := round2_mono h
  rwa [round2_zero] at this

/-- Two values a full cent apart round to strictly ordered cents. -/
theorem round2_lt_of_gap {a b : ℚ} (h : b + 1/100 < a) : round2 b < round2 a := by
  have h1 := round2_le b
  have h2 := sub_lt_round2 a
  linarith

/-! ## Discount-rate lemmas -/

theorem discount_nonneg (q : ℤ) : 0 ≤ Budget.calculate_discount q := by
  unfold Budget.calculate_discount
  split_ifs <;> norm_num

theorem discount_le (q : ℤ) : Budget.calculate_discount q ≤ 15/100 := by
  unfold Budget.calculate_discount
  split_ifs <;> norm_num

theorem discount_mono {q1 q2 : ℤ} (h : q1 ≤ q2) :
    Budget.calculate_discount q1 ≤ Budget.calculate_discount q2 := by
  unfold Budget.calculate_discount
  split_ifs <;> (try norm_num) <;> omega

/-! ## Projections of `Budget.calculate` -/

theorem calc_total_eq (stats : Budget.StatsDict) (material finish : String) (q : ℤ)
    (mc : Option Budget.MoldBaseConfig) (cc : Option Budget.CadBaseConfig) :
    (Budget.calculate stats material finish q mc cc).total_price
      = round2 (Budget.subtotalOf stats material finish mc cc
          * (1 - Budget.calculate_discount q)) := by
  simp only [Budget.calculate, Budget.subtotalOf]
  exact congrArg round2 (by ring)

theorem calc_pp_def (stats : Budget.StatsDict) (material finish : String) (q : ℤ)
    (mc : Option Budget.MoldBaseConfig) (cc : Option Budget.CadBaseConfig) :
    (Budget.calculate stats material finish q mc cc).breakdown.price_per_piece
      = if q > 0
        then round2 ((Budget.calculate stats material finish q mc cc).total_price / (q : ℚ))
        else 0 := rfl

theorem calc_pp_eq (stats : Budget.StatsDict) (material finish : String) (q : ℤ)
    (mc : Option Budget.MoldBaseConfig) (cc : Option Budget.CadBaseConfig) :
    (Budget.calculate stats material finish q mc cc).breakdown.price_per_piece
      = if q > 0
        then round2 (round2 (Budget.subtotalOf stats material finish mc cc
            * (1 - Budget.calculate_discount q)) / (q : ℚ))
        else 0 := by
  rw [calc_pp_def, calc_total_eq]

/-! ## Claim C1 -/

/-- C1: for every pricing request (the calculator accepts all of them),
the returned `total_price` equals `round2(subtotal × (1 − discount_rate))`
where the subtotal is the full-precision sum of the returned
`material_cost`, `processing_cost`, `mold_base_cost` and `setup_fee`
components, for every quantity-discount tier; on the rational model the
internal arithmetic is exact and the single `round2` is the output
boundary.  `final_price` coincides with `total_price`. -/
theorem c1_total_price_invariant (stats : Budget.StatsDict) (material finish : String)
    (q : ℤ) (mc : Option Budget.MoldBaseConfig) (cc : Option Budget.CadBaseConfig) :
    (Budget.calculate stats material finish q mc cc).total_price
      = round2 (((Budget.calculate stats material finish q mc cc).material_cost
          + (Budget.calculate stats material finish q mc cc).processing_cost
          + (Budget.calculate stats material finish q mc cc).mold_base_cost
          + (Budget.calculate stats material finish q mc cc).setup_fee)
        * (1 - (Budget.calculate stats material finish q mc cc).discount))
    ∧ (Budget.calculate stats material finish q mc cc).discount = Budget.calculate_discount q
    ∧ (Budget.calculate stats material finish q mc cc).final_price
        = (Budget.calculate stats material finish q mc cc).total_price := by
  refine ⟨?_, rfl, rfl⟩
  simp only [Budget.calculate]
  exact congrArg round2 (by ring)

/-! ## Claim C2 -/

/-- C2: the quantity discount of the detailed calculator is a step
function of the quantity alone: 15% for `q ≥ 100`, 10% for
`50 ≤ q < 100`, 5% for `10 ≤ q < 50`, 0% otherwise; in particular
`q = 10` yields exactly 5%, `q = 9` yields 0% and `q = 100` yields
15%. -/
theorem c2_discount_tier_function (q : ℤ) :
    (100 ≤ q → Budget.calculate_discount q = 15/100)
    ∧ (50 ≤ q → q < 100 → Budget.calculate_discount q = 10/100)
    ∧ (10 ≤ q → q < 50 → Budget.calculate_discount q = 5/100)
    ∧ (q < 10 → Budget.calculate_discount q = 0)
    ∧ Budget.calculate_discount 10 = 5/100
    ∧ Budget.calculate_discount 9 = 0
    ∧ Budget.calculate_discount 100 = 15/100 := by
  refine ⟨fun h => ?_, fun h1 h2 => ?_, fun h1 h2 => ?_, fun h => ?_,
    by norm_num [Budget.calculate_discount],
    by norm_num [Budget.calculate_discount],
    by norm_num [Budget.calculate_discount]⟩ <;>
  · unfold Budget.calculate_discount
    split_ifs <;> (try norm_num) <;> omega

/-- Witness for C2 at the concrete quantities 100, 60, 10 and 9. -/
theorem c2_witness :
    Budget.calculate_discount 100 = 15/100
    ∧ Budget.calculate_discount 60 = 10/100
    ∧ Budget.calculate_discount 10 = 5/100
    ∧ Budget.calculate_discount 9 = 0 :=
  ⟨(c2_discount_tier_function 100).1 (by norm_num),
   (c2_discount_tier_function 60).2.1 (by norm_num) (by norm_num),
   (c2_discount_tier_function 10).2.2.1 (by norm_num) (by norm_num),
   (c2_discount_tier_function 9).2.2.2.1 (by norm_num)⟩

/-! ## Claim C9 -/

/-- C9: for every integer quantity, the simple path's quantity
multiplier (0.85 / 0.90 / 0.95 / 1.0 at tiers 100 / 50 / 10) equals one
minus the detailed calculator's discount rate (0.15 / 0.10 / 0.05 / 0):
the two tier representations are equivalent tier by tier. -/
theorem c9_tier_representations_equivalent (q : ℤ) :
    MainApi.quantityDiscountMult q = 1 - Budget.calculate_discount q := by
  unfold MainApi.quantityDiscountMult Budget.calculate_discount
  split_ifs <;> norm_num

/-! ## Claim C10 -/

/-- C10: the simple pricing path adds the fixed 500 EUR setup fee into
the per-piece cost before multiplying by the quantity, so the returned
total contains a `q × 500 × discount_multiplier` setup contribution and
is `q` times a per-tier constant (linear in `q` on each tier); the
detailed calculator instead adds its setup fee (`calculate_setup_fee`,
a function of the mold-base configuration only) into the subtotal
exactly once, independent of the quantity. -/
theorem c10_setup_fee_per_piece_vs_per_order (stats : MainApi.GeometryStatsIn)
    (material finish : String) (q : ℤ) (bstats : Budget.StatsDict)
    (mc : Option Budget.MoldBaseConfig) (cc : Option Budget.CadBaseConfig) (q1 q2 : ℤ) :
    (MainApi.calculate_budget_from_stats stats material finish q).total_price
      = round2 ((stats.volume_cm3 * MainApi.simpleMaterialPrice material
            + stats.volume_cm3 * MainApi.simpleMaterialPrice material
              * (MainApi.simpleFinishMult finish - 1))
          * MainApi.quantityDiscountMult q * (q : ℚ)
        + (q : ℚ) * (500 * MainApi.quantityDiscountMult q))
    ∧ (MainApi.calculate_budget_from_stats stats material finish q).total_price
        = round2 (((stats.volume_cm3 * MainApi.simpleMaterialPrice material
              + stats.volume_cm3 * MainApi.simpleMaterialPrice material
                * (MainApi.simpleFinishMult finish - 1) + 500)
            * MainApi.quantityDiscountMult q) * (q : ℚ))
    ∧ (Budget.calculate bstats material finish q1 mc cc).setup_fee
        = Budget.calculate_setup_fee mc
    ∧ (Budget.calculate bstats material finish q1 mc cc).setup_fee
        = (Budget.calculate bstats material finish q2 mc cc).setup_fee
    ∧ Budget.subtotalOf bstats material finish mc cc
        = Budget.calculate_material_cost (bstats.volume.getD 100) material
          + Budget.calculate_processing_cost (bstats.volume.getD 100) finish
              ((bstats.complexity_metrics.getD ⟨none⟩).complexity_score.getD 50)
          + Budget.calculate_mold_base_cost mc cc
          + Budget.calculate_setup_fee mc := by
  refine ⟨?_, ?_, rfl, rfl, rfl⟩
  · simp only [MainApi.calculate_budget_from_stats]
    exact congrArg round2 (by ring)
  · simp only [MainApi.calculate_budget_from_stats]

/-! ## Claim C3 (corrected) -/

/-- C3 counterexample: a statistics dictionary with the required fields
(`volume`, `complexity_metrics`) absent does *not* make
`BudgetCalculator.calculate` fail — the claim's `InvalidPricingInput`
does not exist in the code.  The call returns a complete breakdown with
the defaults substituted (volume 100, score 50): total 6673.50 EUR for
P20/machined/quantity 1. -/
theorem c3_counterexample :
    statsNone.volume = none
    ∧ statsNone.complexity_metrics = none
    ∧ (Budget.calculate statsNone strP20 strMachined 1 none none).total_price = 13347/2
    ∧ (Budget.calculate statsNone strP20 strMachined 1 none none).breakdown.subtotal = 13347/2
    ∧ (Budget.calculate statsNone strP20 strMachined 1 none none).breakdown.price_per_piece
        = 13347/2 := by
  refine ⟨rfl, rfl, ?_, ?_, ?_⟩ <;>
  · simp [Budget.calculate, Budget.calculate_material_cost, Budget.calculate_processing_cost,
      Budget.calculate_mold_base_cost, Budget.calculate_setup_fee, Budget.calculate_discount,
      Budget.MATERIAL_PRICES, Budget.FINISH_MULTIPLIERS, Budget.P20Info, Budget.machinedInfo,
      Budget.BASE_FIXED_FEE, Budget.rateCnc3Axis, Budget.rateCnc5Axis, Budget.rateEdmHour,
      Budget.rateFinishing, Budget.rateAssembly, Budget.rateQuality,
      statsNone, strP20, strMachined, round2, roundDec, round_eq]
    norm_num

/-- C3 amended: `BudgetCalculator.calculate` never fails on absent
statistics fields; it substitutes the documented defaults (`volume` →
100, `complexity_metrics` → score 50) and returns the same breakdown as
if those defaults had been supplied explicitly. -/
theorem c3_missing_fields_defaulted (s : Budget.StatsDict) (material finish : String)
    (q : ℤ) (mc : Option Budget.MoldBaseConfig) (cc : Option Budget.CadBaseConfig)
    (hv : s.volume = none) (hc : s.complexity_metrics = none) :
    Budget.calculate s material finish q mc cc
      = Budget.calculate ⟨some 100, some ⟨some 50⟩, s.manufacturing_analysis⟩
          material finish q mc cc := by
  obtain ⟨v, c, ma⟩ := s
  cases hv
  cases hc
  rfl

/-- Witness for the amended C3 at a concrete all-absent dictionary. -/
theorem c3_witness :
    Budget.calculate statsNone strP20 strMachined 5 none none
      = Budget.calculate ⟨some 100, some ⟨some 50⟩, none⟩ strP20 strMachined 5 none none :=
  c3_missing_fields_defaulted statsNone strP20 strMachined 5 none none rfl rfl

/-! ## Claim C8 (corrected) -/

theorem pp_pos_eq (stats : Budget.StatsDict) (material finish : String) (q : ℤ)
    (mc : Option Budget.MoldBaseConfig) (cc : Option Budget.CadBaseConfig) (hq : 0 < q) :
    (Budget.calculate stats material finish q mc cc).breakdown.price_per_piece
      = round2 (round2 (Budget.subtotalOf stats material finish mc cc
          * (1 - Budget.calculate_discount q)) / (q : ℚ)) := by
  rw [calc_pp_eq, if_pos hq]

theorem subtotal_statsNone :
    Budget.subtotalOf statsNone strP20 strMachined none none = 13347/2 := by
  simp [Budget.subtotalOf, Budget.calculate_material_cost, Budget.calculate_processing_cost,
    Budget.calculate_mold_base_cost, Budget.calculate_setup_fee,
    Budget.MATERIAL_PRICES, Budget.FINISH_MULTIPLIERS, Budget.P20Info, Budget.machinedInfo,
    Budget.BASE_FIXED_FEE, Budget.rateCnc3Axis, Budget.rateCnc5Axis, Budget.rateEdmHour,
    Budget.rateFinishing, Budget.rateAssembly, Budget.rateQuality,
    statsNone, strP20, strMachined]
  norm_num

theorem subtotal_statsTiny :
    Budget.subtotalOf statsTiny strP20 strMachined none none = 1/100 := by
  simp [Budget.subtotalOf, Budget.calculate_material_cost, Budget.calculate_processing_cost,
    Budget.calculate_mold_base_cost, Budget.calculate_setup_fee,
    Budget.MATERIAL_PRICES, Budget.FINISH_MULTIPLIERS, Budget.P20Info, Budget.machinedInfo,
    Budget.BASE_FIXED_FEE, Budget.rateCnc3Axis, Budget.rateCnc5Axis, Budget.rateEdmHour,
    Budget.rateFinishing, Budget.rateAssembly, Budget.rateQuality,
    statsTiny, strP20, strMachined]
  norm_num

/-- C8 (amended): for a fixed request with positive full-precision
subtotal, `price_per_piece` is non-increasing over positive integer
quantities; and provided the subtotal is at least 20 EUR, it strictly
decreases across each tier boundary (9→10, 49→50, 99→100).  The
largeness proviso is forced by the 2-decimal output rounding: for
subtotals below a cent-scale threshold the rounded per-piece prices on
both sides of a boundary coincide (see the counterexample). -/
theorem c8_price_per_unit_monotone (stats : Budget.StatsDict) (material finish : String)
    (mc : Option Budget.MoldBaseConfig) (cc : Option Budget.CadBaseConfig)
    (hS : 0 < Budget.subtotalOf stats material finish mc cc) :
    (∀ q1 q2 : ℤ, 1 ≤ q1 → q1 ≤ q2 →
        (Budget.calculate stats material finish q2 mc cc).breakdown.price_per_piece
          ≤ (Budget.calculate stats material finish q1 mc cc).breakdown.price_per_piece)
    ∧ (20 ≤ Budget.subtotalOf stats material finish mc cc →
        (Budget.calculate stats material finish 10 mc cc).breakdown.price_per_piece
          < (Budget.calculate stats material finish 9 mc cc).breakdown.price_per_piece
        ∧ (Budget.calculate stats material finish 50 mc cc).breakdown.price_per_piece
          < (Budget.calculate stats material finish 49 mc cc).breakdown.price_per_piece
        ∧ (Budget.calculate stats material finish 100 mc cc).breakdown.price_per_piece
          < (Budget.calculate stats material finish 99 mc cc).breakdown.price_per_piece) := by
  set S := Budget.subtotalOf stats material finish mc cc with hSdef
  constructor
  · intro q1 q2 h1 h12
    rw [pp_pos_eq stats material finish q1 mc cc (by omega),
      pp_pos_eq stats material finish q2 mc cc (by omega)]
    apply round2_mono
    have hm := discount_mono h12
    have hT : S * (1 - Budget.calculate_discount q2)
        ≤ S * (1 - Budget.calculate_discount q1) := by
      have := mul_le_mul_of_nonneg_left hm hS.le
      linarith
    have hT1 : 0 ≤ S * (1 - Budget.calculate_discount q1) := by
      have h15 := discount_le q1
      have : (0:ℚ) ≤ 1 - Budget.calculate_discount q1 := by linarith
      exact mul_nonneg hS.le this
    refine div_le_div₀ (round2_nonneg hT1) (round2_mono hT) ?_ ?_
    · exact_mod_cast (by omega : (0:ℤ) < q1)
    · exact_mod_cast h12
  · intro h20
    have e9 : Budget.calculate_discount 9 = 0 := by norm_num [Budget.calculate_discount]
    have e10 : Budget.calculate_discount 10 = 5/100 := by norm_num [Budget.calculate_discount]
    have e49 : Budget.calculate_discount 49 = 5/100 := by norm_num [Budget.calculate_discount]
    have e50 : Budget.calculate_discount 50 = 10/100 := by norm_num [Budget.calculate_discount]
    have e99 : Budget.calculate_discount 99 = 10/100 := by norm_num [Budget.calculate_discount]
    have e100 : Budget.calculate_discount 100 = 15/100 := by norm_num [Budget.calculate_discount]
    refine ⟨?_, ?_, ?_⟩
    · rw [pp_pos_eq stats material finish 10 mc cc (by norm_num),
        pp_pos_eq stats material finish 9 mc cc (by norm_num), e9, e10]
      apply round2_lt_of_gap
      have hb := round2_le (S * (1 - 5/100))
      have ha := sub_lt_round2 (S * (1 - 0))
      push_cast
      linarith
    · rw [pp_pos_eq stats material finish 50 mc cc (by norm_num),
        pp_pos_eq stats material finish 49 mc cc (by norm_num), e49, e50]
      apply round2_lt_of_gap
      have hb := round2_le (S * (1 - 10/100))
      have ha := sub_lt_round2 (S * (1 - 5/100))
      push_cast
      linarith
    · rw [pp_pos_eq stats material finish 100 mc cc (by norm_num),
        pp_pos_eq stats material finish 99 mc cc (by norm_num), e99, e100]
      apply round2_lt_of_gap
      have hb := round2_le (S * (1 - 15/100))
      have ha := sub_lt_round2 (S * (1 - 10/100))
      push_cast
      linarith

/-- C8 counterexample: a request the calculator accepts whose
full-precision subtotal is positive (exactly 0.01 EUR) but whose
per-piece price does *not* strictly decrease across the tier boundary
at quantity 10 — both sides round to 0.00 EUR.  This refutes the
claim's strict decrease for *every* positive subtotal. -/
theorem c8_counterexample :
    0 < Budget.subtotalOf statsTiny strP20 strMachined none none
    ∧ (Budget.calculate statsTiny strP20 strMachined 9 none none).breakdown.price_per_piece
        = (Budget.calculate statsTiny strP20 strMachined 10 none none).breakdown.price_per_piece := by
  have hs := subtotal_statsTiny
  constructor
  · rw [hs]; norm_num
  · rw [pp_pos_eq statsTiny strP20 strMachined 9 none none (by norm_num),
      pp_pos_eq statsTiny strP20 strMachined 10 none none (by norm_num), hs]
    norm_num [Budget.calculate_discount, round2_def, round_eq]

/-- Witness for C8 at the default-statistics request (subtotal
6673.50 EUR): monotone between 3 and 7 pieces and strictly decreasing
at all three tier boundaries. -/
theorem c8_witness :
    ((Budget.calculate statsNone strP20 strMachined 7 none none).breakdown.price_per_piece
      ≤ (Budget.calculate statsNone strP20 strMachined 3 none none).breakdown.price_per_piece)
    ∧ (Budget.calculate statsNone strP20 strMachined 10 none none).breakdown.price_per_piece
        < (Budget.calculate statsNone strP20 strMachined 9 none none).breakdown.price_per_piece
    ∧ (Budget.calculate statsNone strP20 strMachined 50 none none).breakdown.price_per_piece
        < (Budget.calculate statsNone strP20 strMachined 49 none none).breakdown.price_per_piece
    ∧ (Budget.calculate statsNone strP20 strMachined 100 none none).breakdown.price_per_piece
        < (Budget.calculate statsNone strP20 strMachined 99 none none).breakdown.price_per_piece := by
  have h0 : 0 < Budget.subtotalOf statsNone strP20 strMachined none none := by
    rw [subtotal_statsNone]; norm_num
  have h20 : (20:ℚ) ≤ Budget.subtotalOf statsNone strP20 strMachined none none := by
    rw [subtotal_statsNone]; norm_num
  have H := c8_price_per_unit_monotone statsNone strP20 strMachined none none h0
  exact ⟨H.1 3 7 (by norm_num) (by norm_num), (H.2 h20).1, (H.2 h20).2.1, (H.2 h20).2.2⟩

/-! ## Claim C4 -/

theorem analyze_isNone_iff (m : Geo.Mesh) :
    (Geo.analyze m).isNone = true ↔ Geo.referencedVerts m = [] := by
  unfold Geo.analyze Geo.meshBounds
  cases h : Geo.referencedVerts m with
  | nil => simp [h]
  | cons v vs => simp [h]

theorem referencedVerts_nil_iff (m : Geo.Mesh) (hvalid : Geo.facesValid m = true) :
    Geo.referencedVerts m = [] ↔ m.faces = [] := by
  constructor
  · intro h
    cases hf : m.faces with
    | nil => rfl
    | cons f fs =>
      exfalso
      unfold Geo.facesValid at hvalid
      rw [hf] at hvalid
      simp only [List.all_cons, Bool.and_eq_true, decide_eq_true_eq] at hvalid
      obtain ⟨⟨⟨h1, h2⟩, h3⟩, hrest⟩ := hvalid
      unfold Geo.referencedVerts at h
      rw [hf] at h
      cases hg : m.vertices[f.1]? with
      | none =>
        have := List.getElem?_eq_none_iff.mp hg
        omega
      | some v => simp [Geo.faceIdx, List.filterMap_cons, hg] at h
  · intro h
    unfold Geo.referencedVerts
    rw [h]
    rfl

theorem faces_nil_of_vertices_nil (m : Geo.Mesh) (hvalid : Geo.facesValid m = true)
    (hv : m.vertices = []) : m.faces = [] := by
  cases hf : m.faces with
  | nil => rfl
  | cons f fs =>
    exfalso
    unfold Geo.facesValid at hvalid
    rw [hf, hv] at hvalid
    simp at hvalid

/-- C4: for a mesh whose faces index existing vertices (the spec's mesh
invariant), `analyze` fails — returns no statistics at all — exactly
when the mesh has zero vertices or zero faces; every mesh with at least
one vertex and one face yields a complete statistics bundle. -/
theorem c4_analyze_fails_iff_degenerate (m : Geo.Mesh) (hvalid : Geo.facesValid m = true) :
    ((Geo.analyze m).isNone = true ↔ (m.vertices = [] ∨ m.faces = []))
    ∧ (m.vertices ≠ [] → m.faces ≠ [] → (Geo.analyze m).isSome = true) := by
  have h1 := analyze_isNone_iff m
  have h2 := referencedVerts_nil_iff m hvalid
  constructor
  · rw [h1, h2]
    exact ⟨Or.inr, fun h => h.elim (faces_nil_of_vertices_nil m hvalid) id⟩
  · intro hv hf
    have hnot : ¬ (Geo.analyze m).isNone = true := by
      rw [h1, h2]
      exact hf
    cases ho : Geo.analyze m with
    | none => rw [ho] at hnot; exact absurd rfl hnot
    | some s => rfl

/-- Witness for C4 at the concrete tetrahedron mesh. -/
theorem c4_witness :
    ((Geo.analyze tetraMesh).isNone = true
        ↔ (tetraMesh.vertices = [] ∨ tetraMesh.faces = []))
    ∧ (tetraMesh.vertices ≠ [] → tetraMesh.faces ≠ []
        → (Geo.analyze tetraMesh).isSome = true) :=
  c4_analyze_fails_iff_degenerate tetraMesh (by decide)

/-! ## Claim C5 -/

/-- C5: whenever the mesh library reports `is_watertight = false`, the
analysis bundle carries `volume = 0` and the 3×3 identity inertia
placeholder, while `area` is still the mesh's own area. -/
theorem c5_non_watertight_placeholders (m : Geo.Mesh) (s : Geo.AnalyzeResult)
    (hw : m.is_watertight = false) (hs : Geo.analyze m = some s) :
    s.volume = 0 ∧ s.inertia_tensor = [[1, 0, 0], [0, 1, 0], [0, 0, 1]]
      ∧ s.area = m.area := by
  unfold Geo.analyze at hs
  cases hb : Geo.meshBounds m with
  | none => rw [hb] at hs; simp at hs
  | some p =>
    obtain ⟨lo, hi⟩ := p
    rw [hb] at hs
    simp only [Option.some.injEq] at hs
    subst hs
    refine ⟨by simp [hw], ?_, rfl⟩
    simp [hw, Geo.calcInertia]

theorem meshBounds_tetraOpen :
    Geo.meshBounds tetraOpenMesh = some ((0, 0, 0), (1, 1, 1)) := by
  simp [Geo.meshBounds, Geo.referencedVerts, Geo.faceIdx, tetraOpenMesh, tetraMesh,
    Geo.cmin, Geo.cmax, List.get?]

/-- Witness for C5 at the concrete non-watertight tetrahedron. -/
theorem c5_witness :
    ∃ s, Geo.analyze tetraOpenMesh = some s
      ∧ s.volume = 0 ∧ s.inertia_tensor = [[1, 0, 0], [0, 1, 0], [0, 0, 1]]
      ∧ s.area = tetraOpenMesh.area := by
  obtain ⟨s, hs⟩ : ∃ s, Geo.analyze tetraOpenMesh = some s := by
    unfold Geo.analyze
    rw [meshBounds_tetraOpen]
    exact ⟨_, rfl⟩
  exact ⟨s, hs, c5_non_watertight_placeholders tetraOpenMesh s rfl hs⟩

/-! ## Claim C7 (corrected) -/

theorem mapM_faceAspect_isSome (m : Geo.Mesh) :
    ∀ l : List (ℕ × ℕ × ℕ),
      (l.all fun f => f.1 < m.vertices.length && f.2.1 < m.vertices.length
        && f.2.2 < m.vertices.length) = true
      → ∃ rs, l.mapM (Geo.faceAspect m) = some rs := by
  intro l
  induction l with
  | nil => exact fun _ => ⟨[], rfl⟩
  | cons f fs ih =>
    intro hall
    simp only [List.all_cons, Bool.and_eq_true, decide_eq_true_eq] at hall
    obtain ⟨⟨⟨h1, h2⟩, h3⟩, hrest⟩ := hall
    obtain ⟨rs, hrs⟩ := ih (by simpa [List.all_eq_true] using hrest)
    have hfa : (Geo.faceAspect m f).isSome = true := by
      unfold Geo.faceAspect
      rw [List.getElem?_eq_getElem h1, List.getElem?_eq_getElem h2,
        List.getElem?_eq_getElem h3]
      rfl
    obtain ⟨r, hr⟩ := Option.isSome_iff_exists.mp hfa
    refine ⟨r :: rs, ?_⟩
    rw [List.mapM_cons, hr]
    rw [hrs]
    rfl

theorem meshBounds_tetra :
    Geo.meshBounds tetraMesh = some ((0, 0, 0), (1, 1, 1)) := by
  simp [Geo.meshBounds, Geo.referencedVerts, Geo.faceIdx, tetraMesh,
    Geo.cmin, Geo.cmax]

/-- C7 (amended): for every mesh with valid face indices, the
difficulty rating is the threshold classification (<25 `Baixa`/Low,
<50 `Média`/Medium, <75 `Alta`/High, else `Muito Alta`/VeryHigh) of the
*unrounded* complexity score, with a raw score of exactly 25 → Medium,
50 → High, 75 → VeryHigh; the *reported* score is that raw score rounded
to 2 decimals, so the rating is a function of the raw score, not of the
reported score (see the counterexample: reported 25.00 can carry rating
Low). -/
theorem c7_rating_from_unrounded_score (m : Geo.Mesh) (s : Geo.AnalyzeResult)
    (hvalid : Geo.facesValid m = true) (hs : Geo.analyze m = some s) :
    (s.complexity_metrics.difficulty_rating
        = Geo.getDifficultyRating (Geo.scoreOfMesh m)
      ∧ s.complexity_metrics.complexity_score = round2 (Geo.scoreOfMesh m))
    ∧ (∀ x : ℚ, (x < 25 → Geo.getDifficultyRating x = "Baixa")
        ∧ (25 ≤ x → x < 50 → Geo.getDifficultyRating x = "Média")
        ∧ (50 ≤ x → x < 75 → Geo.getDifficultyRating x = "Alta")
        ∧ (75 ≤ x → Geo.getDifficultyRating x = "Muito Alta")) := by
  constructor
  · unfold Geo.analyze at hs
    cases hb : Geo.meshBounds m with
    | none => rw [hb] at hs; simp at hs
    | some p =>
      obtain ⟨lo, hi⟩ := p
      rw [hb] at hs
      simp only [Option.some.injEq] at hs
      subst hs
      obtain ⟨rs, hrs⟩ := mapM_faceAspect_isSome m m.faces hvalid
      constructor <;> simp only [Geo.scoreOfMesh, Geo.calcComplexity, hb, hrs]
  · intro x
    unfold Geo.getDifficultyRating
    refine ⟨fun h => ?_, fun h1 h2 => ?_, fun h1 h2 => ?_, fun h => ?_⟩ <;>
      split_ifs <;> (try rfl) <;> linarith

/-- Witness for the amended C7 at the concrete tetrahedron. -/
theorem c7_witness :
    ∃ s, Geo.analyze tetraMesh = some s
      ∧ s.complexity_metrics.difficulty_rating
          = Geo.getDifficultyRating (Geo.scoreOfMesh tetraMesh)
      ∧ s.complexity_metrics.complexity_score = round2 (Geo.scoreOfMesh tetraMesh) := by
  obtain ⟨s, hs⟩ : ∃ s, Geo.analyze tetraMesh = some s := by
    unfold Geo.analyze
    rw [meshBounds_tetra]
    exact ⟨_, rfl⟩
  have H := c7_rating_from_unrounded_score tetraMesh s (by decide) hs
  exact ⟨s, hs, H.1.1, H.1.2⟩

set_option maxHeartbeats 2000000 in
/-- C7 counterexample: `mesh25` has unrounded complexity score 24.996,
so the *reported* score is exactly 25.00 while the rating is `Baixa`
(Low) — contradicting the claim that a reported score of exactly 25
maps to Medium (and that the rating is a function of the reported score
via the thresholds). -/
theorem c7_counterexample :
    ((Geo.analyze mesh25).map (fun s =>
        (s.complexity_metrics.complexity_score, s.complexity_metrics.difficulty_rating)))
      = some (25, "Baixa")
    ∧ ("Baixa" : String) ≠ "Média" := by
  constructor
  · simp [Geo.analyze, Geo.meshBounds, Geo.referencedVerts, Geo.faceIdx, Geo.cmin, Geo.cmax,
      Geo.calcComplexity, Geo.faceAspect, Geo.sqDist, Geo.svrOf, Geo.compactnessOf,
      Geo.densityOf, Geo.avgAspectOf, Geo.meanQ, Geo.rawScore, Geo.getDifficultyRating,
      Geo.dimsOf, Geo.dimsMax, Geo.dimsMin, mesh25, tetraMesh, round2, round4, roundDec,
      round_eq, List.mapM.loop]
    norm_num
  · decide

/-! ## Claim C6 -/

theorem faceAspect_ge_one {m : Geo.Mesh} {f : ℕ × ℕ × ℕ} {r : ℚ}
    (h : Geo.faceAspect m f = some r) : 1 ≤ r := by
  unfold Geo.faceAspect at h
  cases h0 : m.vertices[f.1]? with
  | none => rw [h0] at h; exact absurd h (by simp)
  | some v0 =>
  rw [h0] at h
  cases h1 : m.vertices[f.2.1]? with
  | none => rw [h1] at h; exact absurd h (by simp)
  | some v1 =>
  rw [h1] at h
  cases h2 : m.vertices[f.2.2]? with
  | none => rw [h2] at h; exact absurd h (by simp)
  | some v2 =>
  rw [h2] at h
  simp only [Option.bind_eq_bind, Option.some_bind, Option.pure_def, Option.some.injEq] at h
  subst h
  split_ifs with hpos
  · rw [le_div_iff₀ hpos, one_mul]
    exact le_trans (min_le_left _ _) (le_max_left _ _)
  · exact le_refl 1

theorem mapM_faceAspect_ge_one (m : Geo.Mesh) :
    ∀ (l : List (ℕ × ℕ × ℕ)) (rs : List ℚ),
      l.mapM (Geo.faceAspect m) = some rs → ∀ r ∈ rs, 1 ≤ r := by
  intro l
  induction l with
  | nil =>
    intro rs h r hr
    rw [List.mapM_nil] at h
    simp only [Option.pure_def, Option.some.injEq] at h
    subst h
    simp at hr
  | cons f fs ih =>
    intro rs h r hr
    rw [List.mapM_cons] at h
    cases hf : Geo.faceAspect m f with
    | none => rw [hf] at h; simp at h
    | some a =>
      rw [hf] at h
      cases hfs : fs.mapM (Geo.faceAspect m) with
      | none => rw [hfs] at h; simp at h
      | some as =>
        rw [hfs] at h
        simp only [Option.bind_eq_bind, Option.some_bind, Option.pure_def, Option.some.injEq] at h
        subst h
        rcases List.mem_cons.mp hr with rfl | hr2
        · exact faceAspect_ge_one hf
        · exact ih as hfs r hr2

theorem length_le_sum_of_one_le :
    ∀ l : List ℚ, (∀ x ∈ l, 1 ≤ x) → (l.length : ℚ) ≤ l.sum := by
  intro l
  induction l with
  | nil => simp
  | cons a t ih =>
    intro h
    have ha := h a (List.mem_cons_self a t)
    have ht := ih (fun x hx => h x (List.mem_cons_of_mem a hx))
    simp only [List.length_cons, List.sum_cons]
    push_cast
    linarith

theorem avgAspect_ge_one {rs : List ℚ} (h : ∀ x ∈ rs, 1 ≤ x) :
    1 ≤ Geo.avgAspectOf rs := by
  unfold Geo.avgAspectOf
  split_ifs with he
  · exact le_refl 1
  · unfold Geo.meanQ
    have hlen : (0:ℚ) < rs.length := by
      exact_mod_cast List.length_pos.mpr he
    rw [le_div_iff₀ hlen, one_mul]
    exact length_le_sum_of_one_le rs h

theorem foldl_minmax_le (vs : List Geo.Point) :
    ∀ a b : Geo.Point, a.1 ≤ b.1 → a.2.1 ≤ b.2.1 → a.2.2 ≤ b.2.2 →
      (vs.foldl (fun acc p => (Geo.cmin acc.1 p, Geo.cmax acc.2 p)) (a, b)).1.1
          ≤ (vs.foldl (fun acc p => (Geo.cmin acc.1 p, Geo.cmax acc.2 p)) (a, b)).2.1
      ∧ (vs.foldl (fun acc p => (Geo.cmin acc.1 p, Geo.cmax acc.2 p)) (a, b)).1.2.1
          ≤ (vs.foldl (fun acc p => (Geo.cmin acc.1 p, Geo.cmax acc.2 p)) (a, b)).2.2.1
      ∧ (vs.foldl (fun acc p => (Geo.cmin acc.1 p, Geo.cmax acc.2 p)) (a, b)).1.2.2
          ≤ (vs.foldl (fun acc p => (Geo.cmin acc.1 p, Geo.cmax acc.2 p)) (a, b)).2.2.2 := by
  induction vs with
  | nil => exact fun a b h1 h2 h3 => ⟨h1, h2, h3⟩
  | cons p ps ih =>
    intro a b h1 h2 h3
    simp only [List.foldl_cons]
    exact ih (Geo.cmin a p) (Geo.cmax b p)
      (le_trans (min_le_left _ _) (le_trans h1 (le_max_left _ _)))
      (le_trans (min_le_left _ _) (le_trans h2 (le_max_left _ _)))
      (le_trans (min_le_left _ _) (le_trans h3 (le_max_left _ _)))

theorem meshBounds_le {m : Geo.Mesh} {lo hi : Geo.Point}
    (h : Geo.meshBounds m = some (lo, hi)) :
    lo.1 ≤ hi.1 ∧ lo.2.1 ≤ hi.2.1 ∧ lo.2.2 ≤ hi.2.2 := by
  unfold Geo.meshBounds at h
  cases hrv : Geo.referencedVerts m with
  | nil => rw [hrv] at h; simp at h
  | cons v vs =>
    rw [hrv] at h
    simp only [Option.some.injEq] at h
    have H := foldl_minmax_le vs v v le_rfl le_rfl le_rfl
    rw [h] at H
    exact H

theorem compactness_dimsOf_mem {lo hi : Geo.Point}
    (h1 : lo.1 ≤ hi.1) (h2 : lo.2.1 ≤ hi.2.1) (h3 : lo.2.2 ≤ hi.2.2) :
    0 ≤ Geo.compactnessOf (Geo.dimsOf lo hi)
      ∧ Geo.compactnessOf (Geo.dimsOf lo hi) ≤ 1 := by
  have hw : (0:ℚ) ≤ hi.1 - lo.1 := by linarith
  have hh : (0:ℚ) ≤ hi.2.1 - lo.2.1 := by linarith
  have hd : (0:ℚ) ≤ hi.2.2 - lo.2.2 := by linarith
  unfold Geo.compactnessOf Geo.dimsOf Geo.dimsMax Geo.dimsMin
  dsimp only
  split_ifs with hpos
  · constructor
    · apply div_nonneg _ hpos.le
      have hmax3 : (0:ℚ) ≤ max (hi.1 - lo.1)
          (max (hi.2.1 - lo.2.1) (hi.2.2 - lo.2.2)) := le_max_of_le_left hw
      have hmin3 : (0:ℚ) ≤ min (hi.1 - lo.1)
          (min (hi.2.1 - lo.2.1) (hi.2.2 - lo.2.2)) := le_min hw (le_min hh hd)
      exact le_min hw (le_min hh (le_min hd (le_min hmax3 hmin3)))
    · rw [div_le_one hpos]
      exact le_trans (min_le_left _ _) (le_max_left _ _)
  · norm_num

theorem svrOf_nonneg {v a : ℚ} (ha : 0 ≤ a) : 0 ≤ Geo.svrOf v a := by
  unfold Geo.svrOf
  split_ifs with h
  · exact div_nonneg ha h.le
  · exact le_refl 0

theorem densityOf_nonneg (n : ℕ) (a : ℚ) : 0 ≤ Geo.densityOf n a := by
  unfold Geo.densityOf
  split_ifs with h
  · exact div_nonneg (Nat.cast_nonneg n) h.le
  · exact le_refl 0

/-- C6: for every analysis result with reported volume > 0 and
area > 0, the reported `complexity_score` lies in [0, 100] and is
exactly the output-boundary rounding of the clamp to [0, 100] of
`svr×10 + (1−compactness)×50 + triangle_density×0.001 +
(average_aspect−1)×10`, each term computed with the documented
zero-guards.  (The source writes `min(100, …)` only; the lower clamp is
genuine because every term of the sum is provably nonnegative.) -/
theorem c6_complexity_score_clamped (m : Geo.Mesh) (s : Geo.AnalyzeResult)
    (lo hi : Geo.Point) (rs : List ℚ)
    (hs : Geo.analyze m = some s)
    (hb : Geo.meshBounds m = some (lo, hi))
    (hr : m.faces.mapM (Geo.faceAspect m) = some rs)
    (hv : 0 < s.volume) (ha : 0 < s.area) :
    s.complexity_metrics.complexity_score
      = round2 (max 0 (min 100
          (Geo.svrOf s.volume s.area * 10
            + (1 - Geo.compactnessOf (Geo.dimsOf lo hi)) * 50
            + Geo.densityOf m.faces.length s.area * (1/1000)
            + (Geo.avgAspectOf rs - 1) * 10)))
    ∧ 0 ≤ s.complexity_metrics.complexity_score
    ∧ s.complexity_metrics.complexity_score ≤ 100 := by
  unfold Geo.analyze at hs
  rw [hb] at hs
  simp only [Option.some.injEq] at hs
  subst hs
  dsimp only at hv ha ⊢
  simp only [Geo.calcComplexity, hr]
  have hF : 0 ≤ Geo.svrOf (if m.is_watertight then m.volume else 0) m.area * 10
      + (1 - Geo.compactnessOf (Geo.dimsOf lo hi)) * 50
      + Geo.densityOf m.faces.length m.area * (1/1000)
      + (Geo.avgAspectOf rs - 1) * 10 := by
    have t1 := svrOf_nonneg (v := if m.is_watertight then m.volume else 0) ha.le
    have hc := meshBounds_le hb
    have t2 := compactness_dimsOf_mem hc.1 hc.2.1 hc.2.2
    have t3 := densityOf_nonneg m.faces.length m.area
    have t4 := avgAspect_ge_one (mapM_faceAspect_ge_one m m.faces rs hr)
    nlinarith [t2.1, t2.2]
  have hscore0 : (0:ℚ) ≤ Geo.rawScore (Geo.svrOf (if m.is_watertight then m.volume else 0) m.area)
      (Geo.compactnessOf (Geo.dimsOf lo hi)) (Geo.densityOf m.faces.length m.area)
      (Geo.avgAspectOf rs) := by
    unfold Geo.rawScore
    exact le_min (by norm_num) hF
  have hscore100 : Geo.rawScore (Geo.svrOf (if m.is_watertight then m.volume else 0) m.area)
      (Geo.compactnessOf (Geo.dimsOf lo hi)) (Geo.densityOf m.faces.length m.area)
      (Geo.avgAspectOf rs) ≤ 100 := min_le_left _ _
  refine ⟨?_, round2_nonneg hscore0, ?_⟩
  · unfold Geo.rawScore
    exact congrArg round2 (max_eq_right (le_min (by norm_num) hF)).symm
  · have := round2_mono hscore100
    rwa [round2_hundred] at this

/-- Witness for C6 at the concrete watertight tetrahedron (volume 1/3,
area 7/2). -/
theorem c6_witness :
    ∃ s, Geo.analyze tetraMesh = some s ∧ 0 < s.volume ∧ 0 < s.area
      ∧ 0 ≤ s.complexity_metrics.complexity_score
      ∧ s.complexity_metrics.complexity_score ≤ 100 := by
  obtain ⟨s, hs⟩ : ∃ s, Geo.analyze tetraMesh = some s := by
    unfold Geo.analyze
    rw [meshBounds_tetra]
    exact ⟨_, rfl⟩
  obtain ⟨rs, hr⟩ :=
    mapM_faceAspect_isSome tetraMesh tetraMesh.faces (by decide)
  have hfields : s.volume = 1/3 ∧ s.area = 7/2 := by
    unfold Geo.analyze at hs
    rw [meshBounds_tetra] at hs
    simp only [Option.some.injEq] at hs
    constructor
    · rw [← hs]
      norm_num [tetraMesh]
    · rw [← hs]
      rfl
  have hv : 0 < s.volume := by rw [hfields.1]; norm_num
  have ha : 0 < s.area := by rw [hfields.2]; norm_num
  have H := c6_complexity_score_clamped tetraMesh s (0, 0, 0) (1, 1, 1) rs
    hs meshBounds_tetra hr hv ha
  exact ⟨s, hs, hv, ha, H.2.1, H.2.2⟩
